import Mathlib

/-
Verification of the client-side data aggregation and session layer of the
inbox-style support-ticket system. The definitions below are a shallow
embedding of src/src/lib/api.ts (aggregator and profile accessors) and of the
AuthProvider component (session coordinator, navigation effect). The remote
backend (supabase tables) is modelled as an explicit database value; backend
request failures are injected through explicit boolean flags, one per
round-trip, mirroring the places where the source inspects an error result.
Timestamps are modelled as natural numbers; row identifiers assigned by the
backend are naturals drawn from a counter, caller-supplied profile ids are
strings, as in the source.
-/

namespace TicketApp

/-- Character-list prefix test; model of the JavaScript String.startsWith used
by the navigation effect. -/
def listStarts : List Char → List Char → Bool
  | [], _ => true
  | _ :: _, [] => false
  | a :: as, b :: bs => a = b && listStarts as bs

/-- Model of pathname.startsWith(pre) from the navigation effect. -/
def strStarts (s pre : String) : Bool := listStarts pre.data s.data

/-- Role enumeration from src/src/types/supabase.ts; the source type UserType
is admin, customer or null, modelled as Option UserRole. -/
inductive UserRole
  | admin
  | customer
deriving DecidableEq, Repr

/-- Profile row, from the Profile interface in src/src/types/supabase.ts. -/
structure Profile where
  id : String
  email : String
  full_name : Option String
  avatar_url : Option String
  user_type : UserRole
  created_at : Nat
  updated_at : Nat
deriving DecidableEq, Repr

/-- Ticket row (persisted fields of the Ticket interface). -/
structure TicketRow where
  id : Nat
  subject : String
  customer_id : String
  status : String
  priority : String
  category : String
  assigned_to : Option String
  created_at : Nat
  updated_at : Nat
deriving DecidableEq, Repr

/-- Message row (persisted fields of the Message interface). -/
structure MessageRow where
  id : Nat
  ticket_id : Nat
  sender_id : String
  content : String
  created_at : Nat
deriving DecidableEq, Repr

/-- Attachment row (persisted fields of the Attachment interface). -/
structure AttachmentRow where
  id : Nat
  message_id : Nat
  name : String
  file_path : String
  size : Nat
  created_at : Nat
deriving DecidableEq, Repr

/-- The backend database: the four tables, a counter for backend-assigned row
ids, and the current clock used for backend-assigned timestamps. -/
structure Db where
  profiles : List Profile
  tickets : List TicketRow
  messages : List MessageRow
  attachments : List AttachmentRow
  nextId : Nat
  now : Nat
deriving DecidableEq, Repr

/-- The empty database. -/
def emptyDb : Db := { profiles := [], tickets := [], messages := [], attachments := [], nextId := 0, now := 0 }

/-- Insertion of one element into a list according to a boolean comparison;
building block of the model of the backend order-by capability. -/
def insertBy {α : Type} (le : α → α → Bool) (a : α) : List α → List α
  | [] => [a]
  | b :: l => if le a b then a :: b :: l else b :: insertBy le a l

/-- Model of the backend select-with-ordering capability: a sort of the row
list by the given boolean comparison. -/
def sortBy {α : Type} (le : α → α → Bool) : List α → List α
  | [] => []
  | a :: l => insertBy le a (sortBy le l)

/-- Comparison for order by updated_at descending (ticket list query). -/
def byUpdatedDesc (a b : TicketRow) : Bool := b.updated_at ≤ a.updated_at

/-- Comparison for order by created_at ascending (message thread query). -/
def byCreatedAsc (a b : MessageRow) : Bool := a.created_at ≤ b.created_at

/-- Comparison for order by created_at descending (last-message query). -/
def byCreatedDesc (a b : MessageRow) : Bool := b.created_at ≤ a.created_at

/-- Model of the JavaScript reduce that folds fetched profile rows into a map
keyed by id and then looks one id up: a later row with the same id overwrites
an earlier one, a missing id yields undefined, modelled as none. -/
def lastMatch (ps : List Profile) (i : String) : Option Profile :=
  ps.foldl (fun acc p => if p.id = i then some p else acc) none

/-- Model of the supabase single() postcondition: a row when the result set
has exactly one element, an error (none) otherwise. -/
def single {α : Type} (l : List α) : Option α :=
  match l with
  | [x] => some x
  | _ => none

/-- Embeds getProfile (api.ts lines 5 to 30): select profiles where id equals
userId, return the first row or null when there is none. -/
def getProfile (db : Db) (userId : String) : Option Profile :=
  (db.profiles.filter (fun p => p.id = userId)).head?

/-- Backend failure kinds distinguished by createProfile: the duplicate-key
code 23505 against everything else. -/
inductive DbErr
  | duplicateKey
  | otherFailure
deriving DecidableEq, Repr

/-- Model of the backend insert into profiles, whose primary key is id: the
insert reports the duplicate-key failure (code 23505) when a row with the same
id is already stored, and otherwise stores a new row built from the payload
with backend-assigned timestamps. -/
def insertProfileRow (db : Db) (userId email : String) (role : UserRole) : Db × Except DbErr Profile :=
  if db.profiles.any (fun p => p.id = userId) then
    (db, Except.error DbErr.duplicateKey)
  else
    let p : Profile :=
      { id := userId, email := email, full_name := none, avatar_url := none,
        user_type := role, created_at := db.now, updated_at := db.now }
    ({ db with profiles := db.profiles ++ [p] }, Except.ok p)

/-- Embeds createProfile (api.ts lines 48 to 85). The pre-insert existence
check reads checkDb, a possibly stale snapshot of the database, while the
insert itself runs against the current database db: separating the two models
the race window between check and insert that the source comments name at
line 69. On a duplicate-key failure the profile is re-fetched from the
current database, as at line 73. -/
def createProfileAt (checkDb db : Db) (userId email : String) (role : UserRole) : Db × Option Profile :=
  match getProfile checkDb userId with
  | some p => (db, some p)
  | none =>
    match insertProfileRow db userId email role with
    | (db1, Except.ok p) => (db1, some p)
    | (db1, Except.error DbErr.duplicateKey) => (db1, getProfile db1 userId)
    | (db1, Except.error DbErr.otherFailure) => (db1, none)

/-- Embeds createProfile run without interleaving: the existence check and the
insert observe the same database. -/
def createProfile (db : Db) (userId email : String) (role : UserRole) : Db × Option Profile :=
  createProfileAt db db userId email role

/-- Embeds fetchOrCreateProfile from the AuthProvider (context file lines 562
to 618): fetch the profile; when absent and an email is known, create a
default customer profile through createProfile; when that returns null,
re-fetch once more in case a concurrent path created the row. The checkDb
snapshot is the database its reads observe, the insert runs against db. -/
def fetchOrCreateProfileAt (checkDb db : Db) (userId : String) (userEmail : Option String) : Db × Option Profile :=
  match getProfile checkDb userId with
  | some p => (db, some p)
  | none =>
    match userEmail with
    | none => (db, none)
    | some email =>
      match createProfileAt checkDb db userId email UserRole.customer with
      | (db1, some p) => (db1, some p)
      | (db1, none) => (db1, getProfile db1 userId)

/-- Embeds fetchOrCreateProfile run without interleaving. -/
def fetchOrCreateProfile (db : Db) (userId : String) (userEmail : Option String) : Db × Option Profile :=
  fetchOrCreateProfileAt db db userId userEmail

/-- Failure flags for the auxiliary round-trips of getTickets, one per place
where the source discards an error result: the customer-profile batch query,
the assignee batch query, the message-count query, and the per-ticket
last-message queries (given by the set of ticket ids whose query fails). -/
structure ListFlags where
  customersFail : Bool
  assignedFail : Bool
  messagesFail : Bool
  lastMsgFailIds : List Nat
deriving DecidableEq, Repr

/-- All auxiliary round-trips succeed. -/
def noFailures : ListFlags :=
  { customersFail := false, assignedFail := false, messagesFail := false, lastMsgFailIds := [] }

/-- Ticket decorated by getTickets: the row plus customer, assignee, message
count and last message; messages stays empty in list views. -/
structure EnrichedTicket where
  base : TicketRow
  customer : Option Profile
  assigned_to_profile : Option Profile
  message_count : Nat
  last_message : Option MessageRow
  messages : List MessageRow
  unread : Bool
deriving DecidableEq, Repr

/-- Embeds the primary query of getTickets (api.ts lines 90 to 109): select
tickets ordered by updated_at descending, filtered by status when one is
given and is neither empty nor the sentinel all, and filtered to the rows
owned by the authenticated user when the role is customer and the auth lookup
yielded a user id; when the auth lookup yields no id the owner filter is not
added. -/
def ticketsQuery (db : Db) (userType : Option UserRole) (authUid : Option String) (status : Option String) : List TicketRow :=
  let ordered := sortBy byUpdatedDesc db.tickets
  let filtered :=
    match status with
    | some s => if s ≠ "" ∧ s ≠ "all" then ordered.filter (fun t => t.status = s) else ordered
    | none => ordered
  match userType, authUid with
  | some UserRole.customer, some uid => filtered.filter (fun t => t.customer_id = uid)
  | some UserRole.customer, none => filtered
  | _, _ => filtered

/-- Embeds the per-ticket last-message query of getTickets (api.ts lines 162
to 177): messages of the ticket ordered by created_at descending, limit 1. -/
def lastMessageQuery (db : Db) (tid : Nat) : Option MessageRow :=
  (sortBy byCreatedDesc (db.messages.filter (fun m => m.ticket_id = tid))).head?

/-- Embeds getTickets (api.ts lines 88 to 193): primary ticket query, then
batched customer and assignee profile lookups, a message-count lookup and a
per-ticket last-message lookup, each degrading to empty data when its
round-trip fails, and finally the decoration of every ticket in the fetched
order. -/
def getTickets (db : Db) (fl : ListFlags) (userType : Option UserRole) (authUid : Option String) (status : Option String) : List EnrichedTicket :=
  let tickets := ticketsQuery db userType authUid status
  if tickets.isEmpty then []
  else
    let customerIds := tickets.map (fun t => t.customer_id)
    let customers := if fl.customersFail then [] else db.profiles.filter (fun p => customerIds.contains p.id)
    let assignedIds := tickets.filterMap (fun t => t.assigned_to)
    let assignedProfiles :=
      if assignedIds.isEmpty then []
      else if fl.assignedFail then []
      else db.profiles.filter (fun p => assignedIds.contains p.id)
    let ticketIds := tickets.map (fun t => t.id)
    let msgs := if fl.messagesFail then [] else db.messages.filter (fun m => ticketIds.contains m.ticket_id)
    tickets.map (fun t =>
      { base := t
        customer := lastMatch customers t.customer_id
        assigned_to_profile :=
          match t.assigned_to with
          | some a => lastMatch assignedProfiles a
          | none => none
        message_count := (msgs.filter (fun m => m.ticket_id = t.id)).length
        last_message := if fl.lastMsgFailIds.contains t.id then none else lastMessageQuery db t.id
        messages := []
        unread := false })

/-- Failure flags for the round-trips of getTicket, one per place where the
source logs and continues: customer profile, assignee profile, message list,
sender profiles, attachments. -/
structure GetFlags where
  customerFail : Bool
  assignedFail : Bool
  messagesFail : Bool
  sendersFail : Bool
  attachmentsFail : Bool
deriving DecidableEq, Repr

/-- All round-trips of getTicket succeed. -/
def allOk : GetFlags :=
  { customerFail := false, assignedFail := false, messagesFail := false,
    sendersFail := false, attachmentsFail := false }

/-- Message decorated with its sender profile and attachment list. -/
structure EnrichedMessage where
  base : MessageRow
  sender : Option Profile
  attachments : List AttachmentRow
deriving DecidableEq, Repr

/-- Ticket view assembled by getTicket. -/
structure TicketView where
  base : TicketRow
  customer : Option Profile
  assigned_to_profile : Option Profile
  messages : List EnrichedMessage
  unread : Bool
deriving DecidableEq, Repr

/-- Embeds getTicket (api.ts lines 195 to 307): fetch the ticket row with
single(), failing the whole operation when it is absent; fetch customer and
assignee profiles, degrading to null on failure; fetch the messages of the
ticket ordered by created_at ascending (an empty thread on failure); resolve
sender profiles and attachments in two batched queries, degrading to empty
data on failure; decorate every message with its sender and its attachments
in fetch order. -/
def getTicket (db : Db) (gf : GetFlags) (ticketId : Nat) : Option TicketView :=
  match single (db.tickets.filter (fun t => t.id = ticketId)) with
  | none => none
  | some t =>
    let customer :=
      if gf.customerFail then none
      else single (db.profiles.filter (fun p => p.id = t.customer_id))
    let assignedProfile :=
      match t.assigned_to with
      | some a => if gf.assignedFail then none else single (db.profiles.filter (fun p => p.id = a))
      | none => none
    let messagesData : Option (List MessageRow) :=
      if gf.messagesFail then none
      else some (sortBy byCreatedAsc (db.messages.filter (fun m => m.ticket_id = ticketId)))
    let msgs := messagesData.getD []
    let senderProfiles :=
      if msgs.isEmpty then []
      else if gf.sendersFail then []
      else db.profiles.filter (fun p => (msgs.map (fun m => m.sender_id)).contains p.id)
    let atts :=
      if msgs.isEmpty then []
      else if gf.attachmentsFail then []
      else db.attachments.filter (fun a => (msgs.map (fun m => m.id)).contains a.message_id)
    some
      { base := t
        customer := customer
        assigned_to_profile := assignedProfile
        messages := msgs.map (fun m =>
          { base := m
            sender := lastMatch senderProfiles m.sender_id
            attachments := atts.filter (fun a => a.message_id = m.id) })
        unread := false }

/-- Failure flags for the write operations: the ticket insert, the message
insert, and the ticket update. -/
structure WriteFlags where
  ticketInsertFail : Bool
  messageInsertFail : Bool
  ticketUpdateFail : Bool
deriving DecidableEq, Repr

/-- Model of the backend insert into tickets: on success the stored row is
built from the payload with a fresh id and backend-assigned timestamps. -/
def insertTicketRow (db : Db) (fail : Bool) (subject customerId priority category status : String) : Db × Option TicketRow :=
  if fail then (db, none)
  else
    let t : TicketRow :=
      { id := db.nextId, subject := subject, customer_id := customerId, status := status,
        priority := priority, category := category, assigned_to := none,
        created_at := db.now, updated_at := db.now }
    ({ db with tickets := db.tickets ++ [t], nextId := db.nextId + 1 }, some t)

/-- Model of the backend insert into messages. -/
def insertMessageRow (db : Db) (fail : Bool) (ticketId : Nat) (senderId content : String) : Db × Option MessageRow :=
  if fail then (db, none)
  else
    let m : MessageRow :=
      { id := db.nextId, ticket_id := ticketId, sender_id := senderId,
        content := content, created_at := db.now }
    ({ db with messages := db.messages ++ [m], nextId := db.nextId + 1 }, some m)

/-- Embeds createTicket (api.ts lines 309 to 356): insert the ticket with
status hard-coded to open; on success, when the initial message text is
non-empty, insert a message attributed to the customer; a failure of that
message insert is logged only, the ticket is still returned. -/
def createTicket (db : Db) (wf : WriteFlags) (subject customerId priority category initialMessage : String) : Db × Option TicketRow :=
  match insertTicketRow db wf.ticketInsertFail subject customerId priority category "open" with
  | (db1, none) => (db1, none)
  | (db1, some t) =>
    if initialMessage ≠ "" then
      ((insertMessageRow db1 wf.messageInsertFail t.id customerId initialMessage).1, some t)
    else (db1, some t)

/-- Partial ticket update payload: a field set to some v is written, a field
left none is kept; models the Partial Ticket argument of updateTicket. -/
structure TicketUpdates where
  subject : Option String
  status : Option String
  priority : Option String
  category : Option String
  assigned_to : Option (Option String)
deriving DecidableEq, Repr

/-- The no-field update used by createMessage purely for its timestamp side
effect. -/
def emptyUpdates : TicketUpdates :=
  { subject := none, status := none, priority := none, category := none, assigned_to := none }

/-- Application of an update payload to a stored row: the given fields plus a
refreshed updated_at, as built at api.ts lines 364 to 367. -/
def applyUpdates (u : TicketUpdates) (now : Nat) (t : TicketRow) : TicketRow :=
  { t with
    subject := u.subject.getD t.subject
    status := u.status.getD t.status
    priority := u.priority.getD t.priority
    category := u.category.getD t.category
    assigned_to := u.assigned_to.getD t.assigned_to
    updated_at := now }

/-- Embeds updateTicket (api.ts lines 358 to 386): write the given fields
plus a refreshed updated_at to the row with the given id and return the
updated row through single(); the operation fails when the backend rejects
the write or when no row matches. -/
def updateTicket (db : Db) (fail : Bool) (ticketId : Nat) (u : TicketUpdates) : Db × Option TicketRow :=
  if fail then (db, none)
  else if db.tickets.any (fun t => t.id = ticketId) then
    let ts := db.tickets.map (fun t => if t.id = ticketId then applyUpdates u db.now t else t)
    ({ db with tickets := ts }, single (ts.filter (fun t => t.id = ticketId)))
  else (db, none)

/-- Embeds createMessage (api.ts lines 455 to 485): insert the message; on
success run updateTicket with the empty payload to refresh the ticket
timestamp, ignoring the result of that update, and return the message. -/
def createMessage (db : Db) (wf : WriteFlags) (ticketId : Nat) (senderId content : String) : Db × Option MessageRow :=
  match insertMessageRow db wf.messageInsertFail ticketId senderId content with
  | (db1, none) => (db1, none)
  | (db1, some m) => ((updateTicket db1 wf.ticketUpdateFail ticketId emptyUpdates).1, some m)

/-- Navigation intent computed by the AuthProvider effect: stay, or redirect
to a target path. -/
inductive NavIntent
  | stay
  | redirect (target : String)
deriving DecidableEq, Repr

/-- Dashboard path of a role, the string built as slash plus the role name. -/
def rolePath : UserRole → String
  | UserRole.admin => "/admin"
  | UserRole.customer => "/customer"

/-- Embeds the body of the navigation effect of the AuthProvider (context
file lines 667 to 697), past its initialization guard: redirect to root when
unauthenticated on a non-public path; when authenticated with a resolved
role, redirect to the role dashboard from the root path or from any path
outside the role dashboard; otherwise stay. -/
def navIntent (isAuth : Bool) (userType : Option UserRole) (pathname : String) : NavIntent :=
  if isAuth = false ∧ strStarts pathname "/register" = false ∧
      strStarts pathname "/forgot-password" = false ∧ pathname ≠ "/" then
    NavIntent.redirect "/"
  else
    match userType with
    | some r =>
      if isAuth = true then
        if pathname = "/" then NavIntent.redirect (rolePath r)
        else if strStarts pathname (rolePath r) = false then NavIntent.redirect (rolePath r)
        else NavIntent.stay
      else NavIntent.stay
    | none => NavIntent.stay

/-- Embeds the whole navigation effect: nothing fires until the coordinator
is initialized and not loading. -/
def navEffect (isInit isLoading isAuth : Bool) (userType : Option UserRole) (pathname : String) : NavIntent :=
  if isInit = false ∨ isLoading = true then NavIntent.stay
  else navIntent isAuth userType pathname

/-- Navigation intent as the specification states it: unauthenticated on a
path that is not root and not under register or forgot-password redirects to
root; authenticated with a resolved role redirects to the role dashboard when
the path is root or does not fall under it; otherwise no redirect. -/
def specNavIntent (isAuth : Bool) (role : Option UserRole) (path : String) : NavIntent :=
  if isAuth = false then
    if path ≠ "/" ∧ strStarts path "/register" = false ∧ strStarts path "/forgot-password" = false then
      NavIntent.redirect "/"
    else NavIntent.stay
  else
    match role with
    | some r =>
      if path = "/" ∨ strStarts path (rolePath r) = false then NavIntent.redirect (rolePath r)
      else NavIntent.stay
    | none => NavIntent.stay

/-- Event alphabet of the session-coordinator subscription lifecycle. -/
inductive AuthEvent
  | subscribeCall
  | unsubscribeCall
deriving DecidableEq, Repr

/-- Outcome of running an asynchronous function body: the events it performs,
and the actions of the closure it returns through its promise. -/
structure AsyncRun where
  events : List AuthEvent
  returnedCleanup : List AuthEvent
deriving DecidableEq, Repr

/-- Embeds the async function body initAuth of the mount effect (context file
lines 622 to 661): it subscribes to the auth-change stream and returns, as
the resolution value of its promise, a closure that invokes unsubscribe once
on the stored subscription handle. -/
def initAuthBody : AsyncRun :=
  { events := [AuthEvent.subscribeCall], returnedCleanup := [AuthEvent.unsubscribeCall] }

/-- Embeds the effect callback of the mount useEffect (context file lines 621
to 664): it invokes the async body and discards the resulting promise, and
the callback itself returns nothing. React registers a teardown cleanup only
when the effect callback returns a function, so the registered cleanup is
none. -/
def authEffectCleanup : Option (List AuthEvent) := none

/-- Events of one mount followed by one teardown of the AuthProvider: the
events of the effect body, then the registered cleanup actions, none when no
cleanup was registered. -/
def mountThenUnmountEvents : List AuthEvent :=
  initAuthBody.events ++ authEffectCleanup.getD []

/-- Inserting with insertBy permutes the element onto the list. -/
theorem perm_insertBy {α : Type} (le : α → α → Bool) (a : α) (l : List α) :
    (insertBy le a l).Perm (a :: l) := by
  induction l with
  | nil => simp [insertBy]
  | cons b l ih =>
    simp only [insertBy]
    by_cases h : le a b = true
    · rw [if_pos h]
    · rw [if_neg h]
      exact (ih.cons b).trans (List.Perm.swap a b l)

/-- Insertion with insertBy preserves sortedness for a total transitive
comparison. -/
theorem pairwise_insertBy {α : Type} {le : α → α → Bool}
    (htot : ∀ a b, le a b = false → le b a = true)
    (htrans : ∀ a b c, le a b = true → le b c = true → le a c = true)
    (a : α) (l : List α) (hl : l.Pairwise (fun x y => le x y = true)) :
    (insertBy le a l).Pairwise (fun x y => le x y = true) := by
  induction l with
  | nil => simp [insertBy]
  | cons b l ih =>
    rw [List.pairwise_cons] at hl
    obtain ⟨hb, hl⟩ := hl
    simp only [insertBy]
    by_cases h : le a b = true
    · rw [if_pos h]
      refine List.Pairwise.cons ?_ (List.Pairwise.cons hb hl)
      intro x hx
      rw [List.mem_cons] at hx
      rcases hx with rfl | hx
      · exact h
      · exact htrans a b x h (hb x hx)
    · rw [if_neg h]
      simp only [Bool.not_eq_true] at h
      refine List.Pairwise.cons ?_ (ih hl)
      intro x hx
      have hx' := (perm_insertBy le a l).mem_iff.mp hx
      rw [List.mem_cons] at hx'
      rcases hx' with hxa | hx'
      · rw [hxa]
        exact htot a b h
      · exact hb x hx'

/-- The sortBy model permutes its input. -/
theorem perm_sortBy {α : Type} (le : α → α → Bool) (l : List α) :
    (sortBy le l).Perm l := by
  induction l with
  | nil => simp [sortBy]
  | cons a l ih =>
    simp only [sortBy]
    exact (perm_insertBy le a (sortBy le l)).trans (ih.cons a)

/-- The sortBy model produces a pairwise-ordered list for a total transitive
comparison. -/
theorem pairwise_sortBy {α : Type} {le : α → α → Bool}
    (htot : ∀ a b, le a b = false → le b a = true)
    (htrans : ∀ a b c, le a b = true → le b c = true → le a c = true)
    (l : List α) : (sortBy le l).Pairwise (fun x y => le x y = true) := by
  induction l with
  | nil => simp [sortBy]
  | cons a l ih => exact pairwise_insertBy htot htrans a _ ih

/-- Claim C10: when a Profile row with the given user id already exists,
createProfile leaves the database untouched and returns the stored row, whose
role is the stored one and not necessarily the requested userType argument. -/
theorem C10_existing_profile_untouched (db : Db) (userId email : String) (role : UserRole)
    (p : Profile) (h : getProfile db userId = some p) :
    createProfile db userId email role = (db, some p) := by
  simp only [createProfile, createProfileAt, h]

/-- Stored profile used by the C10 witness: role customer. -/
def pC10 : Profile :=
  { id := "u1", email := "u1@example.com", full_name := none, avatar_url := none,
    user_type := UserRole.customer, created_at := 3, updated_at := 3 }

/-- Database holding the stored customer profile of the C10 witness. -/
def dbC10 : Db := { emptyDb with profiles := [pC10] }

/-- Witness for claim C10: a sign-up requesting role admin for a user whose
customer profile already exists gets the stored customer row back and the
database is unchanged. -/
theorem C10_witness :
    createProfile dbC10 "u1" "u1@example.com" UserRole.admin = (dbC10, some pC10)
      ∧ pC10.user_type = UserRole.customer :=
  ⟨C10_existing_profile_untouched dbC10 "u1" "u1@example.com" UserRole.admin pC10 (by decide),
    rfl⟩

/-- Claim C1: profile resolution is idempotent under a uniqueness conflict.
Two resolutions for the same new user id, the second of which observes the
stale pre-insert snapshot for its reads so that its insert reports the
duplicate-key conflict, both end with the same profile and the final database
holds exactly one Profile row for that id; neither caller sees an error. -/
theorem C1_conflict_reconciliation (db0 : Db) (userId email : String)
    (h : getProfile db0 userId = none) :
    ∃ p : Profile,
      (fetchOrCreateProfileAt db0 db0 userId (some email)).2 = some p
      ∧ (fetchOrCreateProfileAt db0 (fetchOrCreateProfileAt db0 db0 userId (some email)).1
            userId (some email)).2 = some p
      ∧ ((fetchOrCreateProfileAt db0 (fetchOrCreateProfileAt db0 db0 userId (some email)).1
            userId (some email)).1.profiles.filter (fun q => q.id = userId)).length = 1 := by
  have hfil : db0.profiles.filter (fun q => q.id = userId) = [] := by
    simpa [getProfile, List.head?_eq_none_iff] using h
  have hany : db0.profiles.any (fun q => q.id = userId) = false := by
    rw [List.any_eq_false]
    intro x hx
    have hx' := List.filter_eq_nil_iff.mp hfil x hx
    simpa using hx'
  refine ⟨{ id := userId, email := email, full_name := none, avatar_url := none,
            user_type := UserRole.customer, created_at := db0.now, updated_at := db0.now },
          ?_, ?_, ?_⟩ <;>
  · have hins : insertProfileRow db0 userId email UserRole.customer
        = ({ db0 with profiles := db0.profiles ++
              [{ id := userId, email := email, full_name := none, avatar_url := none,
                 user_type := UserRole.customer, created_at := db0.now, updated_at := db0.now }] },
           Except.ok
             { id := userId, email := email, full_name := none, avatar_url := none,
               user_type := UserRole.customer, created_at := db0.now, updated_at := db0.now }) := by
      unfold insertProfileRow
      rw [if_neg]
      simp [hany]
    have hr1 : fetchOrCreateProfileAt db0 db0 userId (some email)
        = ({ db0 with profiles := db0.profiles ++
              [{ id := userId, email := email, full_name := none, avatar_url := none,
                 user_type := UserRole.customer, created_at := db0.now, updated_at := db0.now }] },
           some
             { id := userId, email := email, full_name := none, avatar_url := none,
               user_type := UserRole.customer, created_at := db0.now, updated_at := db0.now }) := by
      simp only [fetchOrCreateProfileAt, createProfileAt, h, hins]
    have hget1 : getProfile
        { db0 with profiles := db0.profiles ++
            [{ id := userId, email := email, full_name := none, avatar_url := none,
               user_type := UserRole.customer, created_at := db0.now, updated_at := db0.now }] }
        userId
        = some
            { id := userId, email := email, full_name := none, avatar_url := none,
              user_type := UserRole.customer, created_at := db0.now, updated_at := db0.now } := by
      simp [getProfile, List.filter_append, hfil]
    have hany1 : ({ db0 with profiles := db0.profiles ++
          [{ id := userId, email := email, full_name := none, avatar_url := none,
             user_type := UserRole.customer, created_at := db0.now, updated_at := db0.now }] } :
        Db).profiles.any (fun q => q.id = userId) = true := by
      simp [List.any_append]
    have hins1 : insertProfileRow
        { db0 with profiles := db0.profiles ++
            [{ id := userId, email := email, full_name := none, avatar_url := none,
               user_type := UserRole.customer, created_at := db0.now, updated_at := db0.now }] }
        userId email UserRole.customer
        = ({ db0 with profiles := db0.profiles ++
              [{ id := userId, email := email, full_name := none, avatar_url := none,
                 user_type := UserRole.customer, created_at := db0.now, updated_at := db0.now }] },
           Except.error DbErr.duplicateKey) := by
      unfold insertProfileRow
      rw [if_pos]
      exact hany1
    have hr2 : fetchOrCreateProfileAt db0
        { db0 with profiles := db0.profiles ++
            [{ id := userId, email := email, full_name := none, avatar_url := none,
               user_type := UserRole.customer, created_at := db0.now, updated_at := db0.now }] }
        userId (some email)
        = ({ db0 with profiles := db0.profiles ++
              [{ id := userId, email := email, full_name := none, avatar_url := none,
                 user_type := UserRole.customer, created_at := db0.now, updated_at := db0.now }] },
           some
             { id := userId, email := email, full_name := none, avatar_url := none,
               user_type := UserRole.customer, created_at := db0.now, updated_at := db0.now }) := by
      simp only [fetchOrCreateProfileAt, createProfileAt, h, hins1, hget1]
    simp [hr1, hr2, List.filter_append, hfil]

/-- Empty-database instance used by the C1 witness. -/
theorem C1_witness :
    ∃ p : Profile,
      (fetchOrCreateProfileAt emptyDb emptyDb "u9" (some "u9@example.com")).2 = some p
      ∧ (fetchOrCreateProfileAt emptyDb
            (fetchOrCreateProfileAt emptyDb emptyDb "u9" (some "u9@example.com")).1
            "u9" (some "u9@example.com")).2 = some p
      ∧ ((fetchOrCreateProfileAt emptyDb
            (fetchOrCreateProfileAt emptyDb emptyDb "u9" (some "u9@example.com")).1
            "u9" (some "u9@example.com")).1.profiles.filter (fun q => q.id = "u9")).length = 1 :=
  C1_conflict_reconciliation emptyDb "u9" "u9@example.com" (by decide)

/-- Claim C3: with role customer and a resolved current user id, every ticket
returned by the list operation is owned by that user. -/
theorem C3_customer_scope (db : Db) (fl : ListFlags) (status : Option String) (cid : String)
    (e : EnrichedTicket)
    (he : e ∈ getTickets db fl (some UserRole.customer) (some cid) status) :
    e.base.customer_id = cid := by
  simp only [getTickets] at he
  split at he
  · simp at he
  · rw [List.mem_map] at he
    obtain ⟨t, ht, rfl⟩ := he
    simp only [ticketsQuery] at ht
    rw [List.mem_filter] at ht
    simpa using ht.2

/-- Ticket row owned by alice, used by concrete list-view instances. -/
def tAlice : TicketRow :=
  { id := 1, subject := "printer on fire", customer_id := "alice", status := "open",
    priority := "high", category := "hardware", assigned_to := none,
    created_at := 10, updated_at := 20 }

/-- Ticket row owned by bob, used by concrete list-view instances. -/
def tBob : TicketRow :=
  { id := 2, subject := "login broken", customer_id := "bob", status := "pending",
    priority := "low", category := "account", assigned_to := none,
    created_at := 11, updated_at := 15 }

/-- Database with one ticket owned by alice. -/
def dbC3 : Db := { emptyDb with tickets := [tAlice] }

/-- Enrichment of the alice ticket in a database with no profiles and no
messages. -/
def eAlice : EnrichedTicket :=
  { base := tAlice, customer := none, assigned_to_profile := none,
    message_count := 0, last_message := none, messages := [], unread := false }

/-- Witness for claim C3 at a concrete database. -/
theorem C3_witness : eAlice.base.customer_id = "alice" :=
  C3_customer_scope dbC3 noFailures none "alice" eAlice (by decide)

/-- Database with tickets of two different customers. -/
def dbC9 : Db := { emptyDb with tickets := [tAlice, tBob] }

/-- Enrichment of the bob ticket in a database with no profiles and no
messages. -/
def eBob : EnrichedTicket :=
  { base := tBob, customer := none, assigned_to_profile := none,
    message_count := 0, last_message := none, messages := [], unread := false }

/-- Claim C9: when the current-user lookup yields no id, the customer list
query adds no owner filter: the result is the same as for the admin role, and
it can contain tickets owned by different customers. -/
theorem C9_missing_auth_skips_scope :
    (∀ (db : Db) (fl : ListFlags) (status : Option String),
        getTickets db fl (some UserRole.customer) none status
          = getTickets db fl (some UserRole.admin) none status)
      ∧ ∃ e1 e2 : EnrichedTicket,
          e1 ∈ getTickets dbC9 noFailures (some UserRole.customer) none none
          ∧ e2 ∈ getTickets dbC9 noFailures (some UserRole.customer) none none
          ∧ e1.base.customer_id ≠ e2.base.customer_id := by
  refine ⟨fun db fl status => rfl, eAlice, eBob, by decide, by decide, by decide⟩

/-- Claim C8: when the batched customer-profile lookup of the list operation
fails, every ticket of the primary query is still returned, in its fetched
position, with a null customer field; the whole call does not fail. -/
theorem C8_profile_failure_degrades (db : Db) (fl : ListFlags) (ut : Option UserRole)
    (uid : Option String) (status : Option String) (h : fl.customersFail = true) :
    (getTickets db fl ut uid status).map (fun e => e.base) = ticketsQuery db ut uid status
      ∧ ∀ e ∈ getTickets db fl ut uid status, e.customer = none := by
  constructor
  · simp only [getTickets]
    split
    · rename_i hemp
      rw [List.isEmpty_iff] at hemp
      simp [hemp]
    · rw [List.map_map]
      show List.map (fun t => t) (ticketsQuery db ut uid status) = ticketsQuery db ut uid status
      exact List.map_id' _
  · intro e he
    simp only [getTickets, h] at he
    split at he
    · simp at he
    · rw [List.mem_map] at he
      obtain ⟨t, ht, rfl⟩ := he
      simp [lastMatch]

/-- Profile of alice, present in the database of the C8 witness even though
the batched profile query fails. -/
def pAlice : Profile :=
  { id := "alice", email := "alice@example.com", full_name := some "Alice",
    avatar_url := none, user_type := UserRole.customer, created_at := 1, updated_at := 1 }

/-- Database of the C8 witness. -/
def dbC8 : Db := { emptyDb with tickets := [tAlice, tBob], profiles := [pAlice] }

/-- Flags of the C8 witness: only the customer-profile batch query fails. -/
def flC8 : ListFlags :=
  { customersFail := true, assignedFail := false, messagesFail := false, lastMsgFailIds := [] }

/-- Witness for claim C8 at a concrete database where the profile row exists
but its batched lookup fails. -/
theorem C8_witness :
    (getTickets dbC8 flC8 (some UserRole.admin) none none).map (fun e => e.base)
        = ticketsQuery dbC8 (some UserRole.admin) none none
      ∧ ∀ e ∈ getTickets dbC8 flC8 (some UserRole.admin) none none, e.customer = none :=
  C8_profile_failure_degrades dbC8 flC8 (some UserRole.admin) none none rfl

/-- The message insert never touches the tickets table. -/
theorem insertMessageRow_keeps_tickets (db : Db) (b : Bool) (tid : Nat) (sid c : String) :
    (insertMessageRow db b tid sid c).1.tickets = db.tickets := by
  cases b <;> simp [insertMessageRow]

/-- Claim C4: when the ticket insert succeeds, createTicket returns a ticket
whose status is open whatever the inputs, the returned ticket is stored, and
this holds even when the insert of a non-empty initial message fails: the
message failure neither rolls the ticket back nor fails the operation. -/
theorem C4_ticket_creation_best_effort (db : Db) (wf : WriteFlags)
    (subject customerId priority category initialMessage : String)
    (h : wf.ticketInsertFail = false) :
    ∃ t : TicketRow,
      (createTicket db wf subject customerId priority category initialMessage).2 = some t
      ∧ t.status = "open"
      ∧ t ∈ (createTicket db wf subject customerId priority category initialMessage).1.tickets := by
  have hins : insertTicketRow db wf.ticketInsertFail subject customerId priority category "open"
      = ({ db with
            tickets := db.tickets ++
              [{ id := db.nextId, subject := subject, customer_id := customerId, status := "open",
                 priority := priority, category := category, assigned_to := none,
                 created_at := db.now, updated_at := db.now }]
            nextId := db.nextId + 1 },
         some
           { id := db.nextId, subject := subject, customer_id := customerId, status := "open",
             priority := priority, category := category, assigned_to := none,
             created_at := db.now, updated_at := db.now }) := by
    rw [h]
    simp [insertTicketRow]
  refine ⟨{ id := db.nextId, subject := subject, customer_id := customerId, status := "open",
            priority := priority, category := category, assigned_to := none,
            created_at := db.now, updated_at := db.now }, ?_, rfl, ?_⟩ <;>
  · simp only [createTicket, hins]
    by_cases hm : initialMessage = "" <;>
      simp [hm, insertMessageRow_keeps_tickets]

/-- Write flags of the C4 witness: the ticket insert succeeds and the initial
message insert fails. -/
def wfC4 : WriteFlags :=
  { ticketInsertFail := false, messageInsertFail := true, ticketUpdateFail := false }

/-- Witness for claim C4: a concrete creation with a non-empty initial
message whose insert fails still returns the stored open ticket. -/
theorem C4_witness :
    ∃ t : TicketRow,
      (createTicket emptyDb wfC4 "no sound" "alice" "medium" "audio" "it is silent").2 = some t
      ∧ t.status = "open"
      ∧ t ∈ (createTicket emptyDb wfC4 "no sound" "alice" "medium" "audio" "it is silent").1.tickets :=
  C4_ticket_creation_best_effort emptyDb wfC4 "no sound" "alice" "medium" "audio" "it is silent" rfl

/-- Claim C5: when the message insert succeeds, createMessage returns the
message and then runs exactly the no-field ticket update, whose only effect
on a row is a refreshed updated_at; a failure of that secondary update is not
surfaced, the message is still returned. -/
theorem C5_message_timestamp_best_effort (db : Db) (wf : WriteFlags) (ticketId : Nat)
    (senderId content : String) (h : wf.messageInsertFail = false) :
    (∃ m : MessageRow,
        (createMessage db wf ticketId senderId content).2 = some m
        ∧ (createMessage db wf ticketId senderId content).1
            = (updateTicket (insertMessageRow db false ticketId senderId content).1
                wf.ticketUpdateFail ticketId emptyUpdates).1)
      ∧ ∀ (now : Nat) (t : TicketRow),
          applyUpdates emptyUpdates now t = { t with updated_at := now } := by
  constructor
  · refine ⟨{ id := db.nextId, ticket_id := ticketId, sender_id := senderId,
              content := content, created_at := db.now }, ?_, ?_⟩ <;>
    · simp only [createMessage, h]
      simp [insertMessageRow]
  · intro now t
    simp [applyUpdates, emptyUpdates]

/-- Write flags of the C5 witness: the message insert succeeds and the
secondary ticket update fails. -/
def wfC5 : WriteFlags :=
  { ticketInsertFail := false, messageInsertFail := false, ticketUpdateFail := true }

/-- Witness for claim C5: a concrete message creation whose timestamp refresh
fails still returns the message. -/
theorem C5_witness :
    (∃ m : MessageRow,
        (createMessage dbC3 wfC5 1 "alice" "any update?").2 = some m
        ∧ (createMessage dbC3 wfC5 1 "alice" "any update?").1
            = (updateTicket (insertMessageRow dbC3 false 1 "alice" "any update?").1
                wfC5.ticketUpdateFail 1 emptyUpdates).1)
      ∧ ∀ (now : Nat) (t : TicketRow),
          applyUpdates emptyUpdates now t = { t with updated_at := now } :=
  C5_message_timestamp_best_effort dbC3 wfC5 1 "alice" "any update?" rfl

/-- Totality of the ascending created_at comparison. -/
theorem byCreatedAsc_total (a b : MessageRow) :
    byCreatedAsc a b = false → byCreatedAsc b a = true := by
  simp only [byCreatedAsc, decide_eq_false_iff_not, decide_eq_true_eq]
  omega

/-- Transitivity of the ascending created_at comparison. -/
theorem byCreatedAsc_trans (a b c : MessageRow) :
    byCreatedAsc a b = true → byCreatedAsc b c = true → byCreatedAsc a c = true := by
  simp only [byCreatedAsc, decide_eq_true_eq]
  omega

/-- Claim C6: when the ticket row is found and the message fetch succeeds,
the message list of the view is the created_at ascending ordering of exactly
the stored messages of the requested ticket, and the sender and attachment
enrichment preserves that list: nothing is omitted, nothing from another
ticket is included, and the order is non-decreasing in created_at. -/
theorem C6_thread_sorted_complete (db : Db) (gf : GetFlags) (tid : Nat) (v : TicketView)
    (hv : getTicket db gf tid = some v) (hm : gf.messagesFail = false) :
    v.messages.map (fun e => e.base)
        = sortBy byCreatedAsc (db.messages.filter (fun m => m.ticket_id = tid))
      ∧ (v.messages.map (fun e => e.base)).Pairwise (fun a b => a.created_at ≤ b.created_at)
      ∧ (v.messages.map (fun e => e.base)).Perm
          (db.messages.filter (fun m => m.ticket_id = tid)) := by
  have hbase : v.messages.map (fun e => e.base)
      = sortBy byCreatedAsc (db.messages.filter (fun m => m.ticket_id = tid)) := by
    simp only [getTicket] at hv
    split at hv
    · exact absurd hv (by simp)
    · rw [Option.some_inj] at hv
      subst hv
      simp only [hm]
      simp only [if_neg (by simp : ¬(false = true)), Option.getD_some, List.map_map]
      show List.map (fun m => m)
          (sortBy byCreatedAsc (db.messages.filter (fun m => m.ticket_id = tid)))
        = sortBy byCreatedAsc (db.messages.filter (fun m => m.ticket_id = tid))
      exact List.map_id' _
  refine ⟨hbase, ?_, ?_⟩
  · rw [hbase]
    exact (pairwise_sortBy byCreatedAsc_total byCreatedAsc_trans _).imp
      (fun hxy => by simpa [byCreatedAsc] using hxy)
  · rw [hbase]
    exact perm_sortBy _ _

/-- Message of the C6 witness ticket, created late. -/
def mLate : MessageRow :=
  { id := 10, ticket_id := 1, sender_id := "alice", content := "first text", created_at := 5 }

/-- Message of the C6 witness ticket, created early. -/
def mEarly : MessageRow :=
  { id := 11, ticket_id := 1, sender_id := "bob", content := "second text", created_at := 3 }

/-- Message of a different ticket, excluded from the C6 witness thread. -/
def mOther : MessageRow :=
  { id := 12, ticket_id := 2, sender_id := "alice", content := "other text", created_at := 1 }

/-- Database of the C6 witness: two tickets, two messages on ticket 1 stored
out of order, one message on ticket 2. -/
def dbC6 : Db := { emptyDb with tickets := [tAlice, tBob], messages := [mLate, mEarly, mOther] }

/-- View computed by getTicket on the C6 witness database. -/
def vC6 : TicketView :=
  { base := tAlice, customer := none, assigned_to_profile := none,
    messages := [{ base := mEarly, sender := none, attachments := [] },
                 { base := mLate, sender := none, attachments := [] }],
    unread := false }

/-- Witness for claim C6 at a concrete database whose rows are stored out of
creation order. -/
theorem C6_witness :
    vC6.messages.map (fun e => e.base)
        = sortBy byCreatedAsc (dbC6.messages.filter (fun m => m.ticket_id = 1))
      ∧ (vC6.messages.map (fun e => e.base)).Pairwise (fun a b => a.created_at ≤ b.created_at)
      ∧ (vC6.messages.map (fun e => e.base)).Perm
          (dbC6.messages.filter (fun m => m.ticket_id = 1)) :=
  C6_thread_sorted_complete dbC6 allOk 1 vC6 (by decide) rfl

/-- Claim C2: once initialized and not loading, the navigation intent of the
effect agrees with the pure function stated by the specification on every
combination of authentication, role and path, and in particular on the three
specified instances. -/
theorem C2_navigation_function :
    (∀ (isAuth : Bool) (role : Option UserRole) (path : String),
        navEffect true false isAuth role path = specNavIntent isAuth role path)
      ∧ navEffect true false false none "/admin" = NavIntent.redirect "/"
      ∧ navEffect true false true (some UserRole.customer) "/" = NavIntent.redirect "/customer"
      ∧ navEffect true false true (some UserRole.admin) "/admin/settings" = NavIntent.stay := by
  refine ⟨?_, by decide, by decide, by decide⟩
  intro isAuth role path
  have hne : navEffect true false isAuth role path = navIntent isAuth role path := by
    simp [navEffect]
  rw [hne]
  cases isAuth
  · cases role <;>
    · by_cases h1 : strStarts path "/register" = false <;>
        by_cases h2 : strStarts path "/forgot-password" = false <;>
          by_cases h3 : path = "/" <;>
            simp [navIntent, specNavIntent, h1, h2, h3]
  · cases role with
    | none => simp [navIntent, specNavIntent]
    | some r =>
      by_cases h3 : path = "/" <;>
        by_cases h4 : strStarts path (rolePath r) = false <;>
          simp [navIntent, specNavIntent, h3, h4]

/-- Claim C7 is refuted by the code: the effect callback returns nothing to
React (the unsubscribe closure is only the resolution value of the discarded
promise of the async body), so one mount followed by one teardown performs
zero unsubscribe calls, although the returned closure would perform exactly
one; the subscription is leaked, not released exactly once. -/
theorem C7_subscription_never_released :
    mountThenUnmountEvents.count AuthEvent.unsubscribeCall = 0
      ∧ initAuthBody.returnedCleanup.count AuthEvent.unsubscribeCall = 1 := by
  constructor <;> rfl

end TicketApp
